import Mathlib

/-!
Shallow embedding of the parking payment server
(`src/index.js`: Razorpay order creation and payment verification;
`src/unnamed/part_000`: Stripe checkout, product catalog, session
verification and webhook handling).  Request bodies are JSON values
delivered by `express.json()`; the handlers are translated as total
functions over explicit request records, with the external payment
gateway passed in as a function parameter so that "the handler calls /
does not call the gateway" is visible in the model.
-/

namespace ParkingServer

/-- A JSON value as parsed by `express.json()`, with numbers modelled by
rationals.  (`JSON.parse` turns an overflowing numeric literal such as
`1e999` into `Infinity`; the fields modelled by `JVal` are only tested
for truthiness or echoed back verbatim, and for those uses `Infinity`
behaves like every other nonzero number, so it is not distinguished
here.  The `amount` field of order creation, where a non-finite
coercion changes control flow, is modelled by `JSNumber` instead.) -/
inductive JVal where
  | jnull
  | jbool (b : Bool)
  | jnum (q : ℚ)
  | jstr (s : String)
  | jarr (xs : List JVal)
  | jobj (fields : List (String × JVal))

/-- JavaScript truthiness of a JSON value (`!v` in the source tests the
negation of this): `null`, `false`, `0` and `""` are falsy, every other
JSON value is truthy. -/
def jsTruthy : JVal → Bool
  | .jnull => false
  | .jbool b => b
  | .jnum q => if q = 0 then false else true
  | .jstr s => if s = "" then false else true
  | .jarr _ => true
  | .jobj _ => true

/-- Truthiness of a possibly absent field: a missing field destructures
to `undefined`, which is falsy. -/
def jsTruthyOpt : Option JVal → Bool
  | none => false
  | some v => jsTruthy v

/-- `Math.round` of JavaScript on a finite number: round half away
from zero upwards, i.e. `⌊x + 1/2⌋`. -/
def jsRound (q : ℚ) : ℤ := ⌊q + (1 : ℚ) / 2⌋

/-- A JavaScript number as the amount pipeline sees it: a finite value
(a rational), one of the two infinities — which `JSON.parse` produces
from overflowing literals such as `1e999`, and `Number(..)` from
strings such as `"Infinity"` — or `NaN`. -/
inductive JSNumber where
  | nan
  | posInf
  | negInf
  | finite (q : ℚ)
deriving DecidableEq

/-- `isNaN(x)` on a JavaScript number. -/
def JSNumber.isNaN : JSNumber → Bool
  | .nan => true
  | _ => false

/-- The JavaScript `<=` on numbers: false whenever `NaN` is involved,
`-Infinity` below everything else, `+Infinity` above everything else. -/
def JSNumber.le : JSNumber → JSNumber → Bool
  | .nan, _ => false
  | _, .nan => false
  | .negInf, _ => true
  | _, .negInf => false
  | _, .posInf => true
  | .posInf, _ => false
  | .finite q, .finite r => decide (q ≤ r)

/-- The JavaScript `<` on numbers: false whenever `NaN` is involved,
strict at equal infinities. -/
def JSNumber.lt : JSNumber → JSNumber → Bool
  | .nan, _ => false
  | _, .nan => false
  | .posInf, _ => false
  | _, .negInf => false
  | .negInf, _ => true
  | _, .posInf => true
  | .finite q, .finite r => decide (q < r)

/-- `Math.round(amount * 100)` on a JavaScript number: multiplying by
100 and rounding keep `NaN` and the infinities fixed; a finite value
becomes the rounded number of paise. -/
def jsRoundTimes100 : JSNumber → JSNumber
  | .nan => .nan
  | .posInf => .posInf
  | .negInf => .negInf
  | .finite q => .finite (jsRound (q * 100))

/-- The `amount` field of an order-creation request, seen through the
three JavaScript primitives the handler applies to it: its truthiness
(`!amount`), its numeric coercion as a `JSNumber` (`isNaN(amount)`,
`amount <= 0`, `amount < minimumAmount`, `Math.round(amount * 100)`),
and its string rendering (the template-literal interpolation in the
minimum-amount error message). -/
structure AmountValue where
  truthy : Bool
  toNumber : JSNumber
  jsString : String

/-- Body of `POST /api/create-razorpay-order` (src/index.js, lines
194-198): `{ amount, spotName, duration }`; absent fields are `none`. -/
structure CreateOrderReq where
  amount : Option AmountValue
  spotName : Option JVal
  duration : Option JVal

/-- The `notes` object attached to the Razorpay order options
(src/index.js, lines 235-238). -/
structure OrderNotes where
  spotName : Option JVal
  duration : Option JVal

/-- The options object sent to `razorpay.orders.create`
(src/index.js, lines 231-239).  `amount` is a JavaScript number: for a
finite input it is the rounded paise integer, but an input coercing to
`Infinity` passes validation and puts `Infinity` here. -/
structure OrderOptions where
  amount : JSNumber
  currency : String
  receipt : String
  notes : OrderNotes

/-- A response of the order-creation endpoint; each constructor is one
`res.status(..).json(..)` site of the handler. -/
inductive OrderResp where
  /-- `res.status(400).json({ error })` for the missing-field and
  invalid-amount validations (src/index.js, lines 203-216). -/
  | validationErr (status : ℕ) (error : String)
  /-- `res.status(400).json({ error, minimumAmount })`
  (src/index.js, lines 220-226). -/
  | minAmountErr (status : ℕ) (error : String) (minimumAmount : ℕ)
  /-- `res.status(500).json({ error, message })` when the Razorpay
  instance is not initialized (src/index.js, lines 244-250). -/
  | initErr (status : ℕ) (error : String) (message : String)
  /-- `res.json({ orderId, amount, currency })` on success
  (src/index.js, lines 263-267). -/
  | ok (orderId : String) (amount : JSNumber) (currency : String)
  /-- `res.status(statusCode).json({ error, message, statusCode })` from
  the catch block (src/index.js, lines 301-305). -/
  | gatewayErr (status : ℕ) (error : String) (message : String)
      (statusCode : Option ℤ)
deriving DecidableEq

/-- Outcome of the order-creation handler up to (but not including) the
`razorpay.orders.create` call: either an early response or the gateway
call with the constructed options. -/
inductive OrderPre where
  | reject (r : OrderResp)
  | callGateway (opts : OrderOptions)

/-- The error object thrown by the Razorpay SDK as inspected by the
catch block: `statusCode` (possibly absent), `code` (possibly absent,
e.g. `'ENOTFOUND'`), and `message`. -/
structure GatewayErr where
  statusCode : Option ℤ
  code : Option String
  message : String
deriving DecidableEq

/-- The order object returned by a successful `razorpay.orders.create`
call, restricted to the fields the handler reads; the amount is a
JavaScript number. -/
structure RazorpayOrder where
  id : String
  amount : JSNumber
  currency : String
deriving DecidableEq

/-- `const minimumAmount = 50` — ₹50 minimum for INR
(src/index.js, line 219). -/
def minimumAmount : ℕ := 50

/-- Validation and option-building phase of
`POST /api/create-razorpay-order` (src/index.js, lines 194-256), ending
at the `razorpay.orders.create` call.  `razorpayInit` models the
`if (!razorpay)` guard (line 244); `now` models `Date.now()` used in the
receipt. -/
def createOrderPre (razorpayInit : Bool) (now : ℕ) (req : CreateOrderReq) :
    OrderPre :=
  match req.amount with
  | none => .reject (.validationErr 400 "Missing required fields")
  | some a =>
    if !a.truthy || !(jsTruthyOpt req.spotName) || !(jsTruthyOpt req.duration)
    then .reject (.validationErr 400 "Missing required fields")
    else if a.toNumber.isNaN || a.toNumber.le (.finite 0) then
      .reject (.validationErr 400
        "Invalid amount. Amount must be a positive number.")
    else if a.toNumber.lt (.finite (minimumAmount : ℚ)) then
      .reject (.minAmountErr 400
        ("Minimum booking amount is ₹" ++ toString minimumAmount ++
          ". Your amount: ₹" ++ a.jsString) minimumAmount)
    else if !razorpayInit then
      .reject (.initErr 500 "Payment system not initialized"
        "Razorpay instance is not properly initialized")
    else
      .callGateway
        { amount := jsRoundTimes100 a.toNumber
          currency := "INR"
          receipt := "receipt_order_" ++ toString now
          notes := { spotName := req.spotName, duration := req.duration } }

/-- The catch block of the order-creation handler (src/index.js, lines
281-305): classify the gateway error by `statusCode` / `code`, in the
source's if-else order. -/
def classifyGatewayError (e : GatewayErr) : OrderResp :=
  if e.statusCode = some 401 then
    .gatewayErr 500
      "Authentication failed with payment provider. Please check credentials."
      e.message e.statusCode
  else if e.statusCode = some 400 then
    .gatewayErr 400
      "Invalid request to payment provider. Please check the request data."
      e.message e.statusCode
  else if e.code = some "ENOTFOUND" ∨ e.code = some "ECONNREFUSED" then
    .gatewayErr 500
      "Unable to connect to payment provider. Please try again later."
      e.message e.statusCode
  else if e.statusCode.any (fun n => decide (500 ≤ n)) then
    .gatewayErr 503
      "Payment provider is temporarily unavailable. Please try again later."
      e.message e.statusCode
  else
    .gatewayErr 500 "Failed to create payment order" e.message e.statusCode

/-- The whole `POST /api/create-razorpay-order` handler
(src/index.js, lines 187-307), with `razorpay.orders.create` passed in
as the function `gw`. -/
def createRazorpayOrder (razorpayInit : Bool) (now : ℕ)
    (req : CreateOrderReq) (gw : OrderOptions → Except GatewayErr RazorpayOrder) :
    OrderResp :=
  match createOrderPre razorpayInit now req with
  | .reject r => r
  | .callGateway opts =>
    match gw opts with
    | .ok order => .ok order.id order.amount order.currency
    | .error e => classifyGatewayError e

/-- Body of `POST /api/verify-razorpay-payment` (src/index.js, lines
317-324): the six destructured fields; absent fields are `none`. -/
structure VerifyPaymentReq where
  razorpay_order_id : Option JVal
  razorpay_payment_id : Option JVal
  razorpay_signature : Option JVal
  bookingData : Option JVal
  spotId : Option JVal
  userId : Option JVal

/-- A response of the payment-verification endpoint. -/
inductive VerifyResp where
  /-- `res.status(400).json({ error })` (src/index.js, lines 331-334). -/
  | err (status : ℕ) (error : String)
  /-- `res.json({ success: true, paymentId, orderId, bookingData })`
  (src/index.js, lines 341-346). -/
  | ok (paymentId : JVal) (orderId : JVal) (bookingData : JVal)

/-- The `POST /api/verify-razorpay-payment` handler (src/index.js, lines
311-364).  The Razorpay gateway function `gw` is passed in exactly as
for order creation, making it visible that the handler body never
invokes it: between the required-field check and the success response
the source only has comments ("we'll skip signature verification"). -/
def verifyRazorpayPayment
    (_gw : OrderOptions → Except GatewayErr RazorpayOrder)
    (req : VerifyPaymentReq) : VerifyResp :=
  if !(jsTruthyOpt req.razorpay_order_id) ||
      !(jsTruthyOpt req.razorpay_payment_id) ||
      !(jsTruthyOpt req.bookingData) ||
      !(jsTruthyOpt req.spotId) ||
      !(jsTruthyOpt req.userId) then
    .err 400 "Missing required fields"
  else
    .ok (req.razorpay_payment_id.getD .jnull)
      (req.razorpay_order_id.getD .jnull)
      (req.bookingData.getD .jnull)

/-! ### Stripe variant (src/unnamed/part_000) -/

/-- One entry of the static parking catalog
(src/unnamed/part_000, lines 23-29). -/
structure Product where
  name : String
  price : ℤ
  hours : ℕ
deriving DecidableEq

/-- `PARKING_PRODUCTS` (src/unnamed/part_000, lines 23-29): the static
object mapping product-id keys to products. -/
def PARKING_PRODUCTS : List (String × Product) :=
  [("1", { name := "1 Hour Parking", price := 1000, hours := 1 }),
   ("2", { name := "2 Hour Parking", price := 2000, hours := 2 }),
   ("5", { name := "5 Hour Parking", price := 4000, hours := 5 }),
   ("10", { name := "10 Hour Parking", price := 9000, hours := 10 }),
   ("24", { name := "24 Hour Parking", price := 19900, hours := 24 })]

/-- The property names every object literal inherits from
`Object.prototype`, all bound to truthy values (functions, and the
`__proto__` accessor's object), which JavaScript bracket lookup finds
when the id is not an own key. -/
def objectPrototypeKeys : List String :=
  ["constructor", "hasOwnProperty", "isPrototypeOf", "propertyIsEnumerable",
   "toLocaleString", "toString", "valueOf", "__defineGetter__",
   "__defineSetter__", "__lookupGetter__", "__lookupSetter__", "__proto__"]

/-- The result of the JavaScript bracket lookup `PARKING_PRODUCTS[id]`:
an own key finds its product record; an id naming an `Object.prototype`
member finds that inherited (truthy, non-product) value; only an id
that is neither gives `undefined`. -/
inductive BracketValue where
  | ownProduct (p : Product)
  | inherited
  | absent
deriving DecidableEq

/-- `PARKING_PRODUCTS[id]`: bracket lookup in the catalog object
literal, including the prototype chain. -/
def lookupProduct (id : String) : BracketValue :=
  match PARKING_PRODUCTS.lookup id with
  | some p => .ownProduct p
  | none => if objectPrototypeKeys.contains id then .inherited else .absent

/-- `₹${(price / 100).toFixed(2)}` for a nonnegative integer paise
price (src/unnamed/part_000, lines 95 and 113). -/
def priceFormatted (price : ℤ) : String :=
  "₹" ++ toString (price / 100) ++ "." ++
    (if price % 100 < 10 then "0" else "") ++ toString (price % 100)

/-- A response of `GET /products/:id`. -/
inductive ProductResp where
  /-- `res.status(404).json({ error: 'Product not found' })`
  (src/unnamed/part_000, line 107). -/
  | notFound (status : ℕ) (error : String)
  /-- `res.json({ id, ...product, priceFormatted })`
  (src/unnamed/part_000, lines 110-114). -/
  | ok (id : String) (product : Product) (priceFormatted : String)
  /-- The same `res.json` site reached with a value inherited from
  `Object.prototype`: the `if (!product)` guard is skipped because the
  value is truthy, spreading a function contributes no fields, and
  `(undefined / 100).toFixed(2)` renders `"NaN"`, so a 200 response
  `{id, priceFormatted: "₹NaN"}` is sent. -/
  | okNonProduct (id : String) (priceFormatted : String)
deriving DecidableEq

/-- The `GET /products/:id` handler (src/unnamed/part_000, lines
102-115).  It touches no gateway: the whole handler is a catalog lookup
and a response. -/
def getProductById (id : String) : ProductResp :=
  match lookupProduct id with
  | .absent => .notFound 404 "Product not found"
  | .ownProduct product => .ok id product (priceFormatted product.price)
  | .inherited => .okNonProduct id "₹NaN"

/-- The `vehicleData` object of a checkout request
(src/unnamed/part_000, line 40). -/
structure VehicleData where
  plateNumber : Option JVal
  ownerName : Option JVal
  vehicleModel : Option JVal

/-- Body of `POST /create-checkout-session`
(src/unnamed/part_000, line 34).  `productId` is modelled as the string
key it is used as. -/
structure CheckoutReq where
  productId : Option String
  vehicleData : Option VehicleData
  successUrl : Option String
  cancelUrl : Option String

/-- The parameters passed to `stripeClient.checkout.sessions.create`
(src/unnamed/part_000, lines 46-77), flattened to the fields the source
fills in. -/
structure SessionParams where
  currency : String
  product_name : String
  description : String
  unit_amount : ℤ
  quantity : ℕ
  mode : String
  success_url : String
  cancel_url : String
  plateNumber : Option JVal
  ownerName : Option JVal
  vehicleModel : Option JVal
  hours : String
  productId : String

/-- Outcome of the checkout handler up to (but not including) the
`stripeClient.checkout.sessions.create` call. -/
inductive CheckoutPre where
  | reject (status : ℕ) (error : String)
  /-- Building the session parameters evaluates
  `product.hours.toString()` (src/unnamed/part_000, lines 59 and 74);
  with a prototype-inherited value `product.hours` is `undefined`, so a
  `TypeError` is thrown before the gateway call and caught by the
  handler's catch block, which answers 500 `{error: ...}`. -/
  | raiseTypeError
  | callGateway (params : SessionParams)

/-- JavaScript `value || default` on a possibly absent string field
(src/unnamed/part_000, lines 68-69): the default is used when the field
is absent or falsy (the empty string). -/
def jsOrDefault (o : Option String) (d : String) : String :=
  match o with
  | none => d
  | some u => if u = "" then d else u

/-- Validation and session-parameter building of
`POST /create-checkout-session` (src/unnamed/part_000, lines 32-77),
ending at the `stripeClient.checkout.sessions.create` call.
`frontendUrl` models `process.env.FRONTEND_URL`. -/
def createCheckoutSessionPre (frontendUrl : String) (req : CheckoutReq) :
    CheckoutPre :=
  match req.productId with
  | none => .reject 400 "Invalid product ID"
  | some pid =>
    if pid = "" then .reject 400 "Invalid product ID"
    else
      match lookupProduct pid with
      | .absent => .reject 400 "Invalid product ID"
      | .inherited =>
        match req.vehicleData with
        | none => .reject 400 "Vehicle data is required"
        | some vd =>
          if !(jsTruthyOpt vd.plateNumber) || !(jsTruthyOpt vd.ownerName) then
            .reject 400 "Vehicle data is required"
          else .raiseTypeError
      | .ownProduct product =>
        match req.vehicleData with
        | none => .reject 400 "Vehicle data is required"
        | some vd =>
          if !(jsTruthyOpt vd.plateNumber) || !(jsTruthyOpt vd.ownerName) then
            .reject 400 "Vehicle data is required"
          else
            .callGateway
              { currency := "inr"
                product_name := product.name
                description := "Prepaid parking for " ++
                  toString product.hours ++ " hour" ++
                  (if product.hours > 1 then "s" else "")
                unit_amount := product.price
                quantity := 1
                mode := "payment"
                success_url := jsOrDefault req.successUrl
                  (frontendUrl ++
                    "?payment=success&session_id=\x7bCHECKOUT_SESSION_ID\x7d")
                cancel_url := jsOrDefault req.cancelUrl
                  (frontendUrl ++ "?payment=cancelled")
                plateNumber := vd.plateNumber
                ownerName := vd.ownerName
                vehicleModel := vd.vehicleModel
                hours := toString product.hours
                productId := pid }

/-- A Stripe checkout session as returned by
`stripeClient.checkout.sessions.retrieve`, restricted to the fields the
verify-session handler reads (src/unnamed/part_000, lines 122-138). -/
structure StripeSession where
  id : String
  payment_status : String
  amount_total : ℤ
  metadata : JVal

/-- A response of `GET /verify-session/:sessionId`. -/
inductive VerifySessionResp where
  /-- `res.json({ success: true, session: { id, payment_status,
  amount_total, metadata } })` (src/unnamed/part_000, lines 125-133). -/
  | paid (id : String) (payment_status : String) (amount_total : ℤ)
      (metadata : JVal)
  /-- `res.json({ success: false, payment_status })`
  (src/unnamed/part_000, lines 135-138). -/
  | notPaid (payment_status : String)
  /-- `res.status(500).json({ error })` from the catch block
  (src/unnamed/part_000, line 142). -/
  | err (status : ℕ) (error : String)

/-- The `GET /verify-session/:sessionId` handler (src/unnamed/part_000,
lines 118-144), with the gateway fetch passed in as `retrieve`. -/
def verifySession (retrieve : String → Except String StripeSession)
    (sessionId : String) : VerifySessionResp :=
  match retrieve sessionId with
  | .error m => .err 500 m
  | .ok session =>
    if session.payment_status = "paid" then
      .paid session.id session.payment_status session.amount_total
        session.metadata
    else
      .notPaid session.payment_status

/-- A Stripe webhook event as produced by
`stripeClient.webhooks.constructEvent`: the type discriminator and the
opaque `data.object` payload. -/
structure StripeEvent where
  type : String
  data : JVal

/-- Which arm of the `switch (event.type)` the dispatch takes
(src/unnamed/part_000, lines 159-178); every arm only logs. -/
inductive WebhookDispatchCase where
  | checkoutSessionCompleted
  | paymentIntentSucceeded
  | unhandled
deriving DecidableEq

/-- The `switch (event.type)` dispatch of the webhook handler
(src/unnamed/part_000, lines 159-178). -/
def webhookDispatch (event : StripeEvent) : WebhookDispatchCase :=
  if event.type = "checkout.session.completed" then .checkoutSessionCompleted
  else if event.type = "payment_intent.succeeded" then .paymentIntentSucceeded
  else .unhandled

/-- A response of `POST /webhook`. -/
inductive WebhookResp where
  /-- `res.status(400).send(...)`: a plaintext client error
  (src/unnamed/part_000, line 155). -/
  | badRequest (status : ℕ) (body : String)
  /-- `res.json({ received: true })` (src/unnamed/part_000, line 180). -/
  | received
deriving DecidableEq

/-- The `POST /webhook` handler (src/unnamed/part_000, lines 147-181).
`construct` is the SDK's `stripeClient.webhooks.constructEvent`, which
verifies the signature header against the shared secret over the raw
body bytes and throws (here: returns `.error`) on mismatch.  The second
component records which dispatch arm ran: `none` means dispatch was
never reached. -/
def webhookHandler
    (construct : List ℕ → Option String → String → Except String StripeEvent)
    (webhookSecret : String) (rawBody : List ℕ) (sig : Option String) :
    WebhookResp × Option WebhookDispatchCase :=
  match construct rawBody sig webhookSecret with
  | .error m => (.badRequest 400 ("Webhook Error: " ++ m), none)
  | .ok event => (.received, some (webhookDispatch event))

/-! ### Claims -/

/-- Truthiness of a present field is the value's truthiness. -/
theorem jsTruthyOpt_some (v : JVal) : jsTruthyOpt (some v) = jsTruthy v := rfl

/-- C1: every `POST /api/verify-razorpay-payment` request in which
`razorpay_order_id`, `razorpay_payment_id`, `bookingData`, `spotId` and
`userId` are all present and truthy is answered with the success
response `{success: true, paymentId, orderId, bookingData}`, with no
cryptographic signature verification performed: the response is the
same for every value (or absence) of `razorpay_signature`. -/
theorem verify_payment_success_without_signature
    (gw : OrderOptions → Except GatewayErr RazorpayOrder)
    (req : VerifyPaymentReq) (o p b s u : JVal)
    (ho : req.razorpay_order_id = some o) (hot : jsTruthy o = true)
    (hp : req.razorpay_payment_id = some p) (hpt : jsTruthy p = true)
    (hb : req.bookingData = some b) (hbt : jsTruthy b = true)
    (hs : req.spotId = some s) (hst : jsTruthy s = true)
    (hu : req.userId = some u) (hut : jsTruthy u = true) :
    verifyRazorpayPayment gw req = .ok p o b ∧
      ∀ sig, verifyRazorpayPayment gw { req with razorpay_signature := sig } =
        .ok p o b := by
  refine ⟨?_, fun sig => ?_⟩ <;>
    simp [verifyRazorpayPayment, jsTruthyOpt, ho, hp, hb, hs, hu,
      hot, hpt, hbt, hst, hut]

theorem verify_payment_success_without_signature_witness :
    verifyRazorpayPayment (fun _ => .error ⟨none, none, "unused"⟩)
      { razorpay_order_id := some (.jstr "order_1")
        razorpay_payment_id := some (.jstr "pay_1")
        razorpay_signature := none
        bookingData := some (.jobj [])
        spotId := some (.jstr "spot_1")
        userId := some (.jstr "user_1") } =
      .ok (.jstr "pay_1") (.jstr "order_1") (.jobj []) :=
  (verify_payment_success_without_signature _ _
    (.jstr "order_1") (.jstr "pay_1") (.jobj []) (.jstr "spot_1")
    (.jstr "user_1") rfl rfl rfl rfl rfl rfl rfl rfl rfl rfl).1

/-- C9: every `POST /api/verify-razorpay-payment` request missing any of
`razorpay_order_id`, `razorpay_payment_id`, `bookingData`, `spotId` or
`userId` (absent or falsy) is answered with
`400 {error: "Missing required fields"}`, whatever the gateway would do
(the handler never contacts it). -/
theorem verify_payment_missing_fields
    (gw : OrderOptions → Except GatewayErr RazorpayOrder)
    (req : VerifyPaymentReq)
    (h : jsTruthyOpt req.razorpay_order_id = false ∨
      jsTruthyOpt req.razorpay_payment_id = false ∨
      jsTruthyOpt req.bookingData = false ∨
      jsTruthyOpt req.spotId = false ∨
      jsTruthyOpt req.userId = false) :
    verifyRazorpayPayment gw req = .err 400 "Missing required fields" := by
  unfold verifyRazorpayPayment
  rcases h with h | h | h | h | h <;> simp [h]

theorem verify_payment_missing_fields_witness :
    verifyRazorpayPayment (fun _ => .error ⟨none, none, "unused"⟩)
      { razorpay_order_id := some (.jstr "order_2")
        razorpay_payment_id := some (.jstr "pay_2")
        razorpay_signature := some (.jstr "sig_2")
        bookingData := none
        spotId := some (.jstr "spot_2")
        userId := some (.jstr "user_2") } =
      .err 400 "Missing required fields" :=
  verify_payment_missing_fields _ _ (Or.inr (Or.inr (Or.inl rfl)))

/-- C10 (implicit): the `POST /api/verify-razorpay-payment` handler
never invokes the payment gateway on any input — its response is the
same for every gateway function — and on the success path it echoes the
caller-supplied `razorpay_payment_id`, `razorpay_order_id` and
`bookingData` back verbatim, so the response is determined entirely by
the request body. -/
theorem verify_payment_no_gateway_echo :
    (∀ gw gw' req, verifyRazorpayPayment gw req = verifyRazorpayPayment gw' req)
    ∧ ∀ gw req (o p b : JVal),
        req.razorpay_order_id = some o → jsTruthy o = true →
        req.razorpay_payment_id = some p → jsTruthy p = true →
        req.bookingData = some b → jsTruthy b = true →
        jsTruthyOpt req.spotId = true → jsTruthyOpt req.userId = true →
        verifyRazorpayPayment gw req = .ok p o b := by
  refine ⟨fun gw gw' req => rfl, ?_⟩
  intro gw req o p b ho hot hp hpt hb hbt hst hut
  simp [verifyRazorpayPayment, jsTruthyOpt_some, ho, hp, hb, hot, hpt, hbt,
    hst, hut]

theorem verify_payment_no_gateway_echo_witness :
    (verifyRazorpayPayment (fun _ => .error ⟨some 500, none, "boom"⟩)
        { razorpay_order_id := some (.jstr "order_3")
          razorpay_payment_id := some (.jstr "pay_3")
          razorpay_signature := some (.jstr "sig_3")
          bookingData := some (.jarr [.jnum 7])
          spotId := some (.jnum 12)
          userId := some (.jstr "user_3") } =
      verifyRazorpayPayment
        (fun o => .ok ⟨"id", o.amount, o.currency⟩)
        { razorpay_order_id := some (.jstr "order_3")
          razorpay_payment_id := some (.jstr "pay_3")
          razorpay_signature := some (.jstr "sig_3")
          bookingData := some (.jarr [.jnum 7])
          spotId := some (.jnum 12)
          userId := some (.jstr "user_3") })
    ∧ verifyRazorpayPayment (fun _ => .error ⟨some 500, none, "boom"⟩)
        { razorpay_order_id := some (.jstr "order_3")
          razorpay_payment_id := some (.jstr "pay_3")
          razorpay_signature := some (.jstr "sig_3")
          bookingData := some (.jarr [.jnum 7])
          spotId := some (.jnum 12)
          userId := some (.jstr "user_3") } =
      .ok (.jstr "pay_3") (.jstr "order_3") (.jarr [.jnum 7]) :=
  ⟨verify_payment_no_gateway_echo.1 _ _ _,
   verify_payment_no_gateway_echo.2 _ _
     (.jstr "order_3") (.jstr "pay_3") (.jarr [.jnum 7])
     rfl rfl rfl rfl rfl rfl rfl rfl⟩

/-- C3: an order-creation request whose (truthy, numeric) amount is
strictly below the minimum of 50 gets status 400 with the minimum
stated in the error message (and in the `minimumAmount` field), and the
gateway is never called; an amount of exactly 50 passes validation and
the handler proceeds to the gateway call. -/
theorem create_order_minimum_amount_boundary
    (init : Bool) (now : ℕ) (req : CreateOrderReq)
    (gw : OrderOptions → Except GatewayErr RazorpayOrder)
    (a : AmountValue) (q : ℚ)
    (ha : req.amount = some a) (hat : a.truthy = true)
    (hs : jsTruthyOpt req.spotName = true)
    (hd : jsTruthyOpt req.duration = true)
    (hq : a.toNumber = .finite q) (hpos : 0 < q) :
    (q < 50 →
      createOrderPre init now req =
        .reject (.minAmountErr 400
          ("Minimum booking amount is ₹" ++ toString minimumAmount ++
            ". Your amount: ₹" ++ a.jsString) minimumAmount) ∧
      createRazorpayOrder init now req gw =
        .minAmountErr 400
          ("Minimum booking amount is ₹" ++ toString minimumAmount ++
            ". Your amount: ₹" ++ a.jsString) minimumAmount) ∧
    (q = 50 → init = true →
      ∃ opts, createOrderPre init now req = .callGateway opts) := by
  constructor
  · intro hlt
    have hpre : createOrderPre init now req =
        .reject (.minAmountErr 400
          ("Minimum booking amount is ₹" ++ toString minimumAmount ++
            ". Your amount: ₹" ++ a.jsString) minimumAmount) := by
      simp [createOrderPre, ha, hat, hs, hd, hq, JSNumber.isNaN,
        JSNumber.le, JSNumber.lt, not_le.mpr hpos, minimumAmount]
      intro hge
      exact absurd hlt (not_lt.mpr hge)
    exact ⟨hpre, by simp [createRazorpayOrder, hpre]⟩
  · intro hq50 hinit
    subst hq50
    subst hinit
    refine ⟨{ amount := .finite (jsRound ((50 : ℚ) * 100))
              currency := "INR"
              receipt := "receipt_order_" ++ toString now
              notes := { spotName := req.spotName,
                         duration := req.duration } }, ?_⟩
    norm_num [createOrderPre, ha, hat, hs, hd, hq, JSNumber.isNaN,
      JSNumber.le, JSNumber.lt, jsRoundTimes100, minimumAmount]

theorem create_order_minimum_amount_boundary_witness :
    (0 : ℚ) < 49 ∧ (49 : ℚ) < 50 ∧
      createRazorpayOrder true 0
        { amount := some { truthy := true, toNumber := .finite 49, jsString := "49" }
          spotName := some (.jstr "A1")
          duration := some (.jstr "2h") }
        (fun o => .ok ⟨"order_w3", o.amount, o.currency⟩) =
      .minAmountErr 400
        ("Minimum booking amount is ₹" ++ toString minimumAmount ++
          ". Your amount: ₹49") minimumAmount :=
  ⟨by norm_num, by norm_num,
    ((create_order_minimum_amount_boundary true 0
      { amount := some { truthy := true, toNumber := .finite 49, jsString := "49" }
        spotName := some (.jstr "A1")
        duration := some (.jstr "2h") }
      (fun o => .ok ⟨"order_w3", o.amount, o.currency⟩)
      { truthy := true, toNumber := .finite 49, jsString := "49" } 49
      rfl rfl rfl rfl rfl (by norm_num)).1 (by norm_num)).2⟩

/-- C4: for a valid order-creation request the amount sent to the
gateway is `Math.round(amount * 100)` — the input converted to minor
currency units and rounded to the nearest integer — with currency
`"INR"`, and with a healthy (echoing) gateway the response carries
exactly that minor-unit amount and currency. -/
theorem create_order_amount_paise_conversion
    (now : ℕ) (req : CreateOrderReq)
    (gw : OrderOptions → Except GatewayErr RazorpayOrder)
    (a : AmountValue) (q : ℚ) (oid : String)
    (ha : req.amount = some a) (hat : a.truthy = true)
    (hs : jsTruthyOpt req.spotName = true)
    (hd : jsTruthyOpt req.duration = true)
    (hq : a.toNumber = .finite q) (hpos : 0 < q) (hmin : ¬q < 50)
    (hgw : ∀ opts, gw opts = .ok ⟨oid, opts.amount, opts.currency⟩) :
    (∃ opts, createOrderPre true now req = .callGateway opts ∧
      opts.amount = .finite (jsRound (q * 100)) ∧ opts.currency = "INR") ∧
    createRazorpayOrder true now req gw =
      .ok oid (.finite (jsRound (q * 100))) "INR" := by
  have hpre : createOrderPre true now req =
      .callGateway
        { amount := .finite (jsRound (q * 100))
          currency := "INR"
          receipt := "receipt_order_" ++ toString now
          notes := { spotName := req.spotName, duration := req.duration } } := by
    simp [createOrderPre, ha, hat, hs, hd, hq, JSNumber.isNaN, JSNumber.le,
      JSNumber.lt, jsRoundTimes100, not_le.mpr hpos, minimumAmount]
    norm_num at hmin
    exact hmin
  exact ⟨⟨_, hpre, rfl, rfl⟩, by simp [createRazorpayOrder, hpre, hgw]⟩

theorem create_order_amount_paise_conversion_witness :
    jsRound ((100.004 : ℚ) * 100) = 10000 ∧
      createRazorpayOrder true 0
        { amount := some { truthy := true, toNumber := .finite 100.004, jsString := "100.004" }
          spotName := some (.jstr "A1")
          duration := some (.jstr "2h") }
        (fun o => .ok ⟨"order_w4", o.amount, o.currency⟩) =
      .ok "order_w4" (.finite 10000) "INR" := by
  have hround : jsRound ((100.004 : ℚ) * 100) = 10000 := by
    norm_num [jsRound]
  refine ⟨hround, ?_⟩
  have h := (create_order_amount_paise_conversion 0
    { amount := some { truthy := true, toNumber := .finite 100.004, jsString := "100.004" }
      spotName := some (.jstr "A1")
      duration := some (.jstr "2h") }
    (fun o => .ok ⟨"order_w4", o.amount, o.currency⟩)
    { truthy := true, toNumber := .finite 100.004, jsString := "100.004" }
    100.004 "order_w4" rfl rfl rfl rfl rfl (by norm_num) (by norm_num)
    (fun _ => rfl)).2
  rw [h, hround]
  norm_num

/-- C6 counterexample: `JSON.parse` turns the body `{"amount": 1e999}`
into `Infinity` — an amount that is present and is not a finite
positive number — yet `isNaN(Infinity)`, `Infinity <= 0` and
`Infinity < 50` are all false, so validation passes, the handler
proceeds to `razorpay.orders.create` with `amount: Infinity`, and on a
healthy gateway it answers 200 success, not a 400 validation failure. -/
theorem create_order_infinite_amount_counterexample :
    createOrderPre true 0
      { amount := some { truthy := true, toNumber := .posInf, jsString := "Infinity" }
        spotName := some (.jstr "A1")
        duration := some (.jstr "2h") } =
      .callGateway
        { amount := .posInf
          currency := "INR"
          receipt := "receipt_order_" ++ toString (0 : ℕ)
          notes := { spotName := some (.jstr "A1"), duration := some (.jstr "2h") } } ∧
    createRazorpayOrder true 0
      { amount := some { truthy := true, toNumber := .posInf, jsString := "Infinity" }
        spotName := some (.jstr "A1")
        duration := some (.jstr "2h") }
      (fun o => .ok ⟨"order_inf", o.amount, o.currency⟩) =
      .ok "order_inf" .posInf "INR" :=
  ⟨rfl, rfl⟩

/-- C6 (amended): an order-creation request whose `amount` is present
but whose JavaScript numeric coercion is `NaN`, `-Infinity` or a
nonpositive finite number is rejected with a 400 validation response
before any gateway call; the one remaining non-finite-positive case,
a coercion of `+Infinity` (e.g. the JSON literal `1e999`), instead
passes every validation and proceeds to the gateway call. -/
theorem create_order_amount_nonfinite_gap
    (init : Bool) (now : ℕ) (req : CreateOrderReq)
    (gw : OrderOptions → Except GatewayErr RazorpayOrder)
    (a : AmountValue) (ha : req.amount = some a) :
    (a.toNumber = .nan ∨ a.toNumber = .negInf ∨
        (∃ q, a.toNumber = .finite q ∧ q ≤ 0) →
      ∃ err, createOrderPre init now req = .reject (.validationErr 400 err) ∧
        createRazorpayOrder init now req gw = .validationErr 400 err) ∧
    (a.toNumber = .posInf → a.truthy = true →
      jsTruthyOpt req.spotName = true → jsTruthyOpt req.duration = true →
      init = true →
      ∃ opts, createOrderPre init now req = .callGateway opts) := by
  constructor
  · intro h
    cases hcond : (!a.truthy || !(jsTruthyOpt req.spotName) ||
        !(jsTruthyOpt req.duration)) with
    | true =>
      have hpre : createOrderPre init now req =
          .reject (.validationErr 400 "Missing required fields") := by
        simp only [createOrderPre, ha]
        rw [hcond]
        simp
      exact ⟨_, hpre, by simp [createRazorpayOrder, hpre]⟩
    | false =>
      have hinv : (a.toNumber.isNaN || a.toNumber.le (.finite 0)) = true := by
        rcases h with h | h | ⟨q, hq, hle⟩
        · simp [h, JSNumber.isNaN]
        · simp [h, JSNumber.isNaN, JSNumber.le]
        · simp [hq, JSNumber.isNaN, JSNumber.le, hle]
      have hpre : createOrderPre init now req =
          .reject (.validationErr 400
            "Invalid amount. Amount must be a positive number.") := by
        simp only [createOrderPre, ha]
        rw [hcond, hinv]
        simp
      exact ⟨_, hpre, by simp [createRazorpayOrder, hpre]⟩
  · intro hinf hat hs hd hinit
    subst hinit
    refine ⟨{ amount := .posInf
              currency := "INR"
              receipt := "receipt_order_" ++ toString now
              notes := { spotName := req.spotName,
                         duration := req.duration } }, ?_⟩
    simp [createOrderPre, ha, hat, hs, hd, hinf, JSNumber.isNaN,
      JSNumber.le, JSNumber.lt, jsRoundTimes100]

theorem create_order_amount_nonfinite_gap_witness :
    (∃ err,
      createOrderPre true 0
        { amount := some { truthy := true, toNumber := .finite (-5), jsString := "-5" }
          spotName := some (.jstr "A1")
          duration := some (.jstr "2h") } =
        .reject (.validationErr 400 err) ∧
      createRazorpayOrder true 0
        { amount := some { truthy := true, toNumber := .finite (-5), jsString := "-5" }
          spotName := some (.jstr "A1")
          duration := some (.jstr "2h") }
        (fun o => .ok ⟨"order_w6", o.amount, o.currency⟩) =
        .validationErr 400 err) ∧
    (∃ opts,
      createOrderPre true 0
        { amount := some { truthy := true, toNumber := .posInf, jsString := "Infinity" }
          spotName := some (.jstr "A1")
          duration := some (.jstr "2h") } = .callGateway opts) :=
  ⟨(create_order_amount_nonfinite_gap true 0
      { amount := some { truthy := true, toNumber := .finite (-5), jsString := "-5" }
        spotName := some (.jstr "A1")
        duration := some (.jstr "2h") }
      (fun o => .ok ⟨"order_w6", o.amount, o.currency⟩)
      { truthy := true, toNumber := .finite (-5), jsString := "-5" }
      rfl).1 (Or.inr (Or.inr ⟨-5, rfl, by norm_num⟩)),
   (create_order_amount_nonfinite_gap true 0
      { amount := some { truthy := true, toNumber := .posInf, jsString := "Infinity" }
        spotName := some (.jstr "A1")
        duration := some (.jstr "2h") }
      (fun o => .ok ⟨"order_w6b", o.amount, o.currency⟩)
      { truthy := true, toNumber := .posInf, jsString := "Infinity" }
      rfl).2 rfl rfl rfl rfl rfl⟩

/-- C2: when the gateway call of order creation fails, the catch block
classifies the error in the source's priority order: status 401 gives a
fixed sanitized message with server status 500; status 400 passes
through as a client-error 400; network errors (`ENOTFOUND` /
`ECONNREFUSED`) give a retryable 500; a remaining upstream status of at
least 500 gives the distinguishable status 503; anything else falls
back to the generic 500 message. -/
theorem create_order_gateway_error_classification
    (init : Bool) (now : ℕ) (req : CreateOrderReq)
    (gw : OrderOptions → Except GatewayErr RazorpayOrder)
    (opts : OrderOptions) (e : GatewayErr)
    (hpre : createOrderPre init now req = .callGateway opts)
    (hgw : gw opts = .error e) :
    (e.statusCode = some 401 →
      createRazorpayOrder init now req gw = .gatewayErr 500
        "Authentication failed with payment provider. Please check credentials."
        e.message e.statusCode) ∧
    (e.statusCode = some 400 →
      createRazorpayOrder init now req gw = .gatewayErr 400
        "Invalid request to payment provider. Please check the request data."
        e.message e.statusCode) ∧
    (e.statusCode ≠ some 401 → e.statusCode ≠ some 400 →
      (e.code = some "ENOTFOUND" ∨ e.code = some "ECONNREFUSED") →
      createRazorpayOrder init now req gw = .gatewayErr 500
        "Unable to connect to payment provider. Please try again later."
        e.message e.statusCode) ∧
    (e.statusCode ≠ some 401 → e.statusCode ≠ some 400 →
      e.code ≠ some "ENOTFOUND" → e.code ≠ some "ECONNREFUSED" →
      (∃ n, e.statusCode = some n ∧ 500 ≤ n) →
      createRazorpayOrder init now req gw = .gatewayErr 503
        "Payment provider is temporarily unavailable. Please try again later."
        e.message e.statusCode) ∧
    (e.statusCode ≠ some 401 → e.statusCode ≠ some 400 →
      e.code ≠ some "ENOTFOUND" → e.code ≠ some "ECONNREFUSED" →
      (∀ n, e.statusCode = some n → n < 500) →
      createRazorpayOrder init now req gw = .gatewayErr 500
        "Failed to create payment order" e.message e.statusCode) := by
  have hrun : createRazorpayOrder init now req gw = classifyGatewayError e := by
    simp [createRazorpayOrder, hpre, hgw]
  rw [hrun]
  refine ⟨fun h401 => ?_, fun h400 => ?_,
    fun h401 h400 hnet => ?_, fun h401 h400 hnf hcr ⟨n, hn, h500⟩ => ?_,
    fun h401 h400 hnf hcr hsmall => ?_⟩
  · simp [classifyGatewayError, h401]
  · simp [classifyGatewayError, h400]
  · simp [classifyGatewayError, h401, h400, hnet]
  · have hany : e.statusCode.any (fun n => decide (500 ≤ n)) = true := by
      simp [hn, h500]
    simp [classifyGatewayError, h401, h400, hnf, hcr, hany]
  · have hany : e.statusCode.any (fun n => decide (500 ≤ n)) = false := by
      cases hsc : e.statusCode with
      | none => rfl
      | some n => simpa using not_le.mpr (hsmall n hsc)
    simp [classifyGatewayError, h401, h400, hnf, hcr, hany]

theorem create_order_gateway_error_classification_witness :
    createRazorpayOrder true 0
      { amount := some { truthy := true, toNumber := .finite 60, jsString := "60" }
        spotName := some (.jstr "A1")
        duration := some (.jstr "2h") }
      (fun _ => .error ⟨some 401, none, "Authentication failed"⟩) =
      .gatewayErr 500
        "Authentication failed with payment provider. Please check credentials."
        "Authentication failed" (some 401) :=
  (create_order_gateway_error_classification true 0 _ _
    { amount := .finite (jsRound ((60 : ℚ) * 100))
      currency := "INR"
      receipt := "receipt_order_" ++ toString (0 : ℕ)
      notes := { spotName := some (.jstr "A1"), duration := some (.jstr "2h") } }
    ⟨some 401, none, "Authentication failed"⟩
    (by
      norm_num [createOrderPre, jsTruthyOpt, jsTruthy, JSNumber.isNaN,
        JSNumber.le, JSNumber.lt, jsRoundTimes100, minimumAmount]
      rintro (h | h) <;> exact absurd h (by decide))
    rfl).1 rfl

/-- C8 counterexample: the catalog is an object literal, so bracket
lookup consults the prototype chain.  `GET /products/constructor` finds
the inherited `Object.prototype.constructor`, a truthy value, skips the
`if (!product)` guard and answers 200 `{id, priceFormatted: "₹NaN"}`
instead of 404; and `POST /create-checkout-session` with
`productId: "constructor"` passes the `!PARKING_PRODUCTS[productId]`
check instead of failing with `"Invalid product ID"` (it then throws a
caught `TypeError` at `product.hours.toString()`, answering 500). -/
theorem product_lookup_prototype_counterexample :
    lookupProduct "constructor" = .inherited ∧
    getProductById "constructor" = .okNonProduct "constructor" "₹NaN" ∧
    createCheckoutSessionPre "http://localhost:5173"
      { productId := some "constructor"
        vehicleData := some { plateNumber := some (.jstr "KA01AB1234"),
                              ownerName := some (.jstr "Asha"),
                              vehicleModel := none }
        successUrl := none
        cancelUrl := none } = .raiseTypeError := by
  refine ⟨by decide, by decide, ?_⟩
  rfl

/-- C8 (amended): for every product identifier that the bracket lookup
`PARKING_PRODUCTS[id]` resolves to `undefined` — an id that is neither
an own catalog key nor a property inherited from `Object.prototype` —
lookup fails as claimed: `GET /products/:id` answers
`404 {error: "Product not found"}`, and `POST /create-checkout-session`
with a missing or such unknown `productId` is rejected with the
`"Invalid product ID"` failure before the gateway call.  Identifiers
naming `Object.prototype` members bypass both checks. -/
theorem product_lookup_unknown_id
    (id : String) (hid : lookupProduct id = .absent)
    (frontendUrl : String) (req : CheckoutReq)
    (hreq : req.productId = none ∨
      ∃ s, req.productId = some s ∧ lookupProduct s = .absent) :
    getProductById id = .notFound 404 "Product not found" ∧
    createCheckoutSessionPre frontendUrl req =
      .reject 400 "Invalid product ID" := by
  constructor
  · simp [getProductById, hid]
  · rcases hreq with h | ⟨s, hsome, hnone⟩
    · simp [createCheckoutSessionPre, h]
    · simp [createCheckoutSessionPre, hsome, hnone]

theorem product_lookup_unknown_id_witness :
    lookupProduct "999" = .absent ∧
      getProductById "999" = .notFound 404 "Product not found" ∧
      createCheckoutSessionPre "http://localhost:5173"
        { productId := some "999"
          vehicleData := some { plateNumber := some (.jstr "KA01AB1234"),
                                ownerName := some (.jstr "Asha"),
                                vehicleModel := none }
          successUrl := none
          cancelUrl := none } =
        .reject 400 "Invalid product ID" := by
  refine ⟨by decide, ?_, ?_⟩
  · exact (product_lookup_unknown_id "999" (by decide) "http://localhost:5173"
      { productId := some "999"
        vehicleData := some { plateNumber := some (.jstr "KA01AB1234"),
                              ownerName := some (.jstr "Asha"),
                              vehicleModel := none }
        successUrl := none
        cancelUrl := none }
      (Or.inr ⟨"999", rfl, by decide⟩)).1
  · exact (product_lookup_unknown_id "999" (by decide) "http://localhost:5173"
      { productId := some "999"
        vehicleData := some { plateNumber := some (.jstr "KA01AB1234"),
                              ownerName := some (.jstr "Asha"),
                              vehicleModel := none }
        successUrl := none
        cancelUrl := none }
      (Or.inr ⟨"999", rfl, by decide⟩)).2

/-- C7: when the session fetch of `GET /verify-session/:sessionId`
succeeds, the handler answers with the success payload
`{success: true, session: {id, payment_status, amount_total, metadata}}`
if and only if the gateway-reported payment status is `"paid"`; any
other status gets `{success: false, payment_status}` — a plain response
carrying the raw status, not an error. -/
theorem verify_session_paid_iff_success
    (retrieve : String → Except String StripeSession) (sessionId : String)
    (s : StripeSession) (h : retrieve sessionId = .ok s) :
    (s.payment_status = "paid" →
      verifySession retrieve sessionId =
        .paid s.id s.payment_status s.amount_total s.metadata) ∧
    (s.payment_status ≠ "paid" →
      verifySession retrieve sessionId = .notPaid s.payment_status) ∧
    ((∃ i ps amt md, verifySession retrieve sessionId = .paid i ps amt md)
      ↔ s.payment_status = "paid") := by
  refine ⟨fun hp => ?_, fun hp => ?_, ?_, fun hp => ?_⟩
  · simp [verifySession, h, hp]
  · simp [verifySession, h, hp]
  · rintro ⟨i, ps, amt, md, hps⟩
    by_contra hne
    simp [verifySession, h, hne] at hps
  · exact ⟨s.id, s.payment_status, s.amount_total, s.metadata,
      by simp [verifySession, h, hp]⟩

theorem verify_session_paid_iff_success_witness :
    verifySession
      (fun sid => .ok ⟨sid, "paid", 2000, .jobj []⟩) "cs_w7" =
      .paid "cs_w7" "paid" 2000 (.jobj []) ∧
    verifySession
      (fun sid => .ok ⟨sid, "unpaid", 2000, .jobj []⟩) "cs_w7" =
      .notPaid "unpaid" :=
  ⟨(verify_session_paid_iff_success _ "cs_w7" ⟨"cs_w7", "paid", 2000, .jobj []⟩
      rfl).1 rfl,
   (verify_session_paid_iff_success _ "cs_w7" ⟨"cs_w7", "unpaid", 2000, .jobj []⟩
      rfl).2.1 (by decide)⟩

/-- C5: a `POST /webhook` request whose signature does not verify (the
SDK's `constructEvent` throws) is answered with a plaintext 400 and the
event dispatch is never reached; once the signature verifies, the
handler acknowledges with `{received: true}` for every event, whatever
its type. -/
theorem webhook_signature_gate
    (construct : List ℕ → Option String → String → Except String StripeEvent)
    (secret : String) (rawBody : List ℕ) (sig : Option String) :
    (∀ m, construct rawBody sig secret = .error m →
      webhookHandler construct secret rawBody sig =
        (.badRequest 400 ("Webhook Error: " ++ m), none)) ∧
    (∀ event, construct rawBody sig secret = .ok event →
      webhookHandler construct secret rawBody sig =
        (.received, some (webhookDispatch event))) := by
  constructor <;> intro x hx <;> simp [webhookHandler, hx]

theorem webhook_signature_gate_witness :
    webhookHandler
      (fun _ sig _ => if sig = some "good" then
        .ok ⟨"some.future.event", .jnull⟩ else .error "Signature mismatch")
      "whsec_w5" [123, 125] (some "bad") =
      (.badRequest 400 ("Webhook Error: " ++ "Signature mismatch"), none) ∧
    webhookHandler
      (fun _ sig _ => if sig = some "good" then
        .ok ⟨"some.future.event", .jnull⟩ else .error "Signature mismatch")
      "whsec_w5" [123, 125] (some "good") =
      (.received, some .unhandled) := by
  constructor
  · exact (webhook_signature_gate _ "whsec_w5" [123, 125] (some "bad")).1
      "Signature mismatch" rfl
  · have h := (webhook_signature_gate
      (fun _ sig _ => if sig = some "good" then
        .ok ⟨"some.future.event", .jnull⟩ else .error "Signature mismatch")
      "whsec_w5" [123, 125] (some "good")).2
      ⟨"some.future.event", .jnull⟩ rfl
    simpa [webhookDispatch] using h

end ParkingServer
